import Mathlib

/-!
# Chat widget controller (`static/js/chat.js`)

A shallow embedding of the event handlers of `static/js/chat.js` and the
properties of the chat session they implement.

## Modelling

* A JavaScript string is the list of its UTF-16 code units (`JsString`), so
  `charAt(0)`, `slice(1)`, `+` and `trim()` are list operations.
* What the handlers do to the page is recorded as a list of primitive
  `Effect`s in program order (`Js`); a page `State` is obtained by applying
  them.  A handler body may throw, which ends it and keeps the effects
  already performed, exactly as a rejected promise chain does.
* `fetch` is asynchronous: issuing it adds the request to `State.pending`;
  a later `Event.settle` picks one pending request and runs its
  `.then`/`.catch` chain on the outcome (`FetchResult`).
* What the JavaScript engine defines and the script only calls
  (`String.prototype.toUpperCase`, the text of a `TypeError`) is a parameter
  (`Runtime`).
* A message is what `addMessage` was called with: the interpolated text and
  the two flags.  Markup inside the text is not interpreted.
* `e.preventDefault()`, `userInput.focus()` and the styling of the elements
  have no counterpart in the model.
-/

namespace ChatJs

/-! ## Strings -/

/-- A JavaScript string: its UTF-16 code units. -/
abbrev JsString := List Nat

/-- UTF-16 code units of one Unicode scalar value. -/
def utf16 (c : Char) : List Nat :=
  if c.toNat < 0x10000 then [c.toNat]
  else [0xD800 + (c.toNat - 0x10000) / 0x400, 0xDC00 + (c.toNat - 0x10000) % 0x400]

/-- A string literal of the script, as a JavaScript string. -/
def lit (s : String) : JsString := s.toList.flatMap utf16

/-- ECMAScript `WhiteSpace` and `LineTerminator` code units, the ones
`String.prototype.trim` strips. -/
def isJsWhitespace (c : Nat) : Bool :=
  c = 0x09 || c = 0x0A || c = 0x0B || c = 0x0C || c = 0x0D || c = 0x20 || c = 0xA0 ||
  c = 0x1680 || (0x2000 ≤ c && c ≤ 0x200A) || c = 0x2028 || c = 0x2029 || c = 0x202F ||
  c = 0x205F || c = 0x3000 || c = 0xFEFF

/-- JavaScript `s.trim()`. -/
def trim (s : JsString) : JsString :=
  ((s.dropWhile isJsWhitespace).reverse.dropWhile isJsWhitespace).reverse

/-- JavaScript `s.charAt(0)`. -/
def charAt0 (s : JsString) : JsString := s.take 1

/-- JavaScript `s.slice(1)`. -/
def slice1 (s : JsString) : JsString := s.drop 1

/-! ## Values, errors and the engine -/

/-- A thrown value or rejection reason; the handlers read only `error.message`. -/
structure JsError where
  message : JsString
  deriving DecidableEq, Repr

/-- A value read from a property of the parsed response body.  A number is
kept as the two things the handlers observe of it, whether it is non-zero
and its decimal text; an array or object as the outcome of converting it to
a string (which throws when the object carries its own `toString`). -/
inductive JsValue where
  | undefined
  | null
  | bool (b : Bool)
  | number (nonZero : Bool) (text : JsString)
  | string (s : JsString)
  | object (text : Except JsError JsString)

/-- The parsed body `data` of a response: `null`, a non-null value that is
not an object with named fields (boolean, number, string, array), or an
object given by its fields. -/
inductive Json where
  | null
  | atom
  | object (fields : List (JsString × JsValue))

/-- What the engine defines: upper-casing, and the `TypeError` raised for the
failing expression named by the argument. -/
structure Runtime where
  toUpperCase : JsString → JsString
  typeError : JsString → JsError

/-- JavaScript truthiness (`ToBoolean`). -/
def JsValue.truthy : JsValue → Bool
  | .undefined => false
  | .null => false
  | .bool b => b
  | .number nonZero _ => nonZero
  | .string s => !s.isEmpty
  | .object _ => true

/-- JavaScript string conversion, as done by a template literal. -/
def JsValue.toStr : JsValue → Except JsError JsString
  | .undefined => .ok (lit "undefined")
  | .null => .ok (lit "null")
  | .bool true => .ok (lit "true")
  | .bool false => .ok (lit "false")
  | .number _ text => .ok text
  | .string s => .ok s
  | .object text => text

/-- Own property `k` of an object, `undefined` when absent. -/
def getField (fields : List (JsString × JsValue)) (k : JsString) : JsValue :=
  match fields with
  | [] => .undefined
  | (k', v) :: rest => if k' = k then v else getField rest k

/-! ## Page state and effects -/

/-- One entry of the transcript: a call `addMessage(message, isUser, isSystem)`. -/
structure Message where
  text : JsString
  isUser : Bool
  isSystem : Bool
  deriving DecidableEq, Repr

/-- A request issued with `fetch`. -/
inductive Request where
  /-- `POST /chat` with body `{message}`. -/
  | chat (message : JsString)
  /-- `POST /reset`. -/
  | reset
  /-- `GET /model`. -/
  | modelGet
  /-- `POST /model` with body `{model}`. -/
  | modelPost (model : JsString)
  deriving DecidableEq, Repr

/-- A primitive action of the script on the page. -/
inductive Effect where
  /-- `chatContainer.appendChild(messageDiv)`. -/
  | appendMessage (m : Message)
  /-- `chatContainer.scrollTop = chatContainer.scrollHeight`. -/
  | scrollToBottom
  /-- `typingIndicator.classList.remove('d-none')`. -/
  | showTyping
  /-- `typingIndicator.classList.add('d-none')`. -/
  | hideTyping
  /-- `chatContainer.innerHTML = ''`. -/
  | clearTranscript
  /-- `userInput.value = v`. -/
  | setInput (v : JsString)
  /-- `currentModelDisplay.textContent = v`. -/
  | setDisplay (v : JsString)
  /-- `currentModel = v`. -/
  | setCurrentModel (v : JsString)
  /-- `fetch(...)`. -/
  | fetch (r : Request)
  /-- `console.error(label, error)`. -/
  | consoleError (label : JsString) (error : JsError)
  deriving DecidableEq, Repr

/-- The page as the script sees it. -/
structure State where
  /-- Message elements of `chatContainer`, oldest first. -/
  transcript : List Message
  /-- `userInput.value`. -/
  input : JsString
  /-- Whether `typingIndicator` carries the class `d-none`. -/
  typingHidden : Bool
  /-- `currentModelDisplay.textContent`. -/
  display : JsString
  /-- The variable `currentModel`. -/
  currentModel : JsString
  /-- Every request issued so far, oldest first. -/
  requests : List Request
  /-- Requests issued and not yet settled, oldest first. -/
  pending : List Request
  /-- What was written with `console.error`. -/
  console : List (JsString × JsError)
  deriving DecidableEq, Repr

/-- One effect applied to the page. -/
def State.apply (s : State) : Effect → State
  | .appendMessage m => { s with transcript := s.transcript ++ [m] }
  | .scrollToBottom => s
  | .showTyping => { s with typingHidden := false }
  | .hideTyping => { s with typingHidden := true }
  | .clearTranscript => { s with transcript := [] }
  | .setInput v => { s with input := v }
  | .setDisplay v => { s with display := v }
  | .setCurrentModel v => { s with currentModel := v }
  | .fetch r => { s with requests := s.requests ++ [r], pending := s.pending ++ [r] }
  | .consoleError label error => { s with console := s.console ++ [(label, error)] }

/-- Effects applied in order. -/
def State.applyAll (s : State) (es : List Effect) : State := es.foldl State.apply s

/-! ## Handler bodies -/

/-- A handler body run to its end: the effects it performed, in order, and
whether it returned a value or threw. -/
structure Js (α : Type) where
  effects : List Effect
  result : Except JsError α

/-- A body that returns at once. -/
def Js.pure {α : Type} (a : α) : Js α := ⟨[], .ok a⟩

/-- Sequencing: when the first part throws the rest does not run. -/
def Js.bind {α β : Type} (x : Js α) (f : α → Js β) : Js β :=
  match x.result with
  | .error e => ⟨x.effects, .error e⟩
  | .ok a => ⟨x.effects ++ (f a).effects, (f a).result⟩

instance : Monad Js where
  pure := Js.pure
  bind := Js.bind

/-- Perform one effect. -/
def emit (e : Effect) : Js Unit := ⟨[e], .ok ()⟩

/-- JavaScript `throw`. -/
def throwJs {α : Type} (e : JsError) : Js α := ⟨[], .error e⟩

/-- Outcome of an engine operation that may throw. -/
def liftExcept {α : Type} : Except JsError α → Js α
  | .ok a => Js.pure a
  | .error e => throwJs e

/-- Promise chain `body.catch(handler)`: the handler runs when the body threw. -/
def tryCatch (body : Js Unit) (handler : JsError → Js Unit) : Js Unit :=
  match body.result with
  | .ok a => ⟨body.effects, .ok a⟩
  | .error e => ⟨body.effects ++ (handler e).effects, (handler e).result⟩

/-- Property read `data.k`; reading a property of `null` throws. -/
def Json.get (rt : Runtime) (data : Json) (k : JsString) : Js JsValue :=
  match data with
  | .null => throwJs (rt.typeError k)
  | .atom => Js.pure .undefined
  | .object fields => Js.pure (getField fields k)

/-- A `Response`: its `ok` flag (status 200-299) and the outcome of
`response.json()`, the parsed body or the rejection for a body that cannot be
read as JSON. -/
structure Response where
  ok : Bool
  json : Except JsError Json

/-- Outcome of a `fetch`: the promise rejects (network error) or resolves to
a response. -/
inductive FetchResult where
  | rejected (reason : JsError)
  | resolved (response : Response)

/-- Start of a promise chain on a settled `fetch`: a rejection skips every
`.then` and reaches the `.catch`. -/
def FetchResult.await : FetchResult → Js Response
  | .rejected reason => throwJs reason
  | .resolved response => Js.pure response

/-! ## The script -/

/-- Source `addMessage(message, isUser, isSystem)`, lines 16-36.  The text is
interpolated into the markup of the new element, which is then appended. -/
def addMessage (message : JsValue) (isUser isSystem : Bool) : Js Unit := do
  let text ← liftExcept message.toStr
  emit (.appendMessage ⟨text, isUser, isSystem⟩)
  emit .scrollToBottom

/-- Source `showTypingIndicator()`, lines 39-42. -/
def showTypingIndicator : Js Unit := do
  emit .showTyping
  emit .scrollToBottom

/-- Source `hideTypingIndicator()`, lines 45-47. -/
def hideTypingIndicator : Js Unit :=
  emit .hideTyping

/-- Source `checkAvailableModels()`, lines 50-55: up to the `fetch` call. -/
def checkAvailableModels : Js Unit := do
  showTypingIndicator
  emit (.fetch .modelGet)

/-- Source `checkAvailableModels()`, lines 56-92: the chain on the settled
`GET /model`. -/
def checkAvailableModelsSettled (rt : Runtime) (res : FetchResult) : Js Unit :=
  tryCatch
    (do
      let response ← res.await
      let data ← liftExcept response.json
      hideTypingIndicator
      let current_model ← data.get rt (lit "current_model")
      match current_model with
      | .string m =>
        emit (.setDisplay (rt.toUpperCase (charAt0 m) ++ slice1 m))
        emit (.setCurrentModel m)
        let mut modelMessage := lit "Available AI models:"
        let openai_available ← data.get rt (lit "openai_available")
        if openai_available.truthy then
          modelMessage := modelMessage ++ lit "\n✓ OpenAI (GPT-4o)"
        else
          modelMessage := modelMessage ++ lit "\n✗ OpenAI (API key not configured)"
        let gemini_available ← data.get rt (lit "gemini_available")
        if gemini_available.truthy then
          modelMessage := modelMessage ++ lit "\n✓ Google Gemini"
        else
          modelMessage := modelMessage ++ lit "\n✗ Google Gemini (API key not configured)"
        let nltk_available ← data.get rt (lit "nltk_available")
        if nltk_available.truthy then
          modelMessage := modelMessage ++ lit "\n✓ NLTK (Rule-Based Fallback)"
        modelMessage := modelMessage ++ (lit "\n\nCurrent model: " ++ rt.toUpperCase m)
        addMessage (.string modelMessage) false true
      | _ =>
        -- only a string has `charAt`: the call throws before any assignment
        throwJs (rt.typeError (lit "data.current_model.charAt")))
    (fun error => do
      hideTypingIndicator
      emit (.consoleError (lit "Error checking models:") error)
      addMessage (.string (lit "Error checking available models. Please try again.")) false true)

/-- Source submit handler of `chatForm`, lines 96-118: up to the `fetch` call.
`value` is `userInput.value`. -/
def submitHandler (value : JsString) : Js Unit :=
  let message := trim value
  -- `if (!message) return;`
  if message.isEmpty then Js.pure ()
  else do
    addMessage (.string message) true false
    emit (.setInput [])
    showTypingIndicator
    emit (.fetch (.chat message))

/-- Source submit handler of `chatForm`, lines 119-143: the chain on the
settled `POST /chat`. -/
def submitSettled (rt : Runtime) (res : FetchResult) : Js Unit :=
  tryCatch
    (do
      let response ← res.await
      let data ←
        if !response.ok then throwJs ⟨lit "Network response was not ok"⟩
        else liftExcept response.json
      hideTypingIndicator
      let error ← data.get rt (lit "error")
      if error.truthy then
        let text ← liftExcept error.toStr
        addMessage (.string (lit "Error: " ++ text)) false false
      else
        let response ← data.get rt (lit "response")
        addMessage response false false)
    (fun error => do
      hideTypingIndicator
      addMessage
        (.string (lit "Sorry, there was an error processing your request: " ++ error.message))
        false false
      emit (.consoleError (lit "Error:") error))

/-- Source click handler of `resetButton`, lines 147-151: the `fetch` call. -/
def resetHandler : Js Unit :=
  emit (.fetch .reset)

/-- Source click handler of `resetButton`, lines 152-163: the chain on the
settled `POST /reset`.  The parsed body is not read. -/
def resetSettled (res : FetchResult) : Js Unit :=
  tryCatch
    (do
      let response ← res.await
      let _data ← liftExcept response.json
      emit .clearTranscript
      addMessage (.string (lit "Hello! I\x27m your AI assistant. How can I help you today?"))
        false false)
    (fun error => do
      emit (.consoleError (lit "Error resetting chat:") error)
      addMessage (.string (lit "Error resetting chat. Please try again.")) false false)

/-- Source `changeModel(modelName)`, lines 167-176: up to the `fetch` call. -/
def changeModel (modelName : JsString) : Js Unit := do
  showTypingIndicator
  emit (.fetch (.modelPost modelName))

/-- Source `changeModel(modelName)`, lines 177-192: the chain on the settled
`POST /model`. -/
def changeModelSettled (rt : Runtime) (res : FetchResult) : Js Unit :=
  tryCatch
    (do
      let response ← res.await
      let data ← liftExcept response.json
      hideTypingIndicator
      let current_model ← data.get rt (lit "current_model")
      match current_model with
      | .string m =>
        emit (.setDisplay (rt.toUpperCase (charAt0 m) ++ slice1 m))
        emit (.setCurrentModel m)
        addMessage (.string (lit "Model switched to: " ++ rt.toUpperCase m)) false true
      | _ =>
        -- only a string has `charAt`: the call throws before any assignment
        throwJs (rt.typeError (lit "data.current_model.charAt")))
    (fun error => do
      hideTypingIndicator
      emit (.consoleError (lit "Error changing model:") error)
      addMessage (.string (lit "Error changing model. Please try again.")) false true)

/-- The chain that runs when a request of the given kind settles. -/
def onSettle (rt : Runtime) : Request → FetchResult → Js Unit
  | .chat _ => submitSettled rt
  | .reset => resetSettled
  | .modelGet => checkAvailableModelsSettled rt
  | .modelPost _ => changeModelSettled rt

/-! ## The page as an event-driven system -/

/-- What can happen on the page: the operator edits the input field, submits
the form, clicks reset, the check-models button or a model item (lines
196-208), or the pending request at position `i` settles. -/
inductive Event where
  | editInput (value : JsString)
  | submit
  | clickReset
  | clickCheckModels
  | clickModel (modelName : JsString)
  | settle (i : Nat) (res : FetchResult)

/-- The page after a handler body has run. -/
def State.run (s : State) (body : Js Unit) : State := s.applyAll body.effects

/-- One event handled to completion (handlers run one at a time). -/
def step (rt : Runtime) (s : State) : Event → State
  | .editInput value => { s with input := value }
  | .submit => s.run (submitHandler s.input)
  | .clickReset => s.run resetHandler
  | .clickCheckModels => s.run checkAvailableModels
  | .clickModel modelName => s.run (changeModel modelName)
  | .settle i res =>
    match s.pending[i]? with
    | none => s
    | some req => ({ s with pending := s.pending.eraseIdx i }).run (onSettle rt req res)

/-- A sequence of events handled in order. -/
def runEvents (rt : Runtime) (s : State) (es : List Event) : State := es.foldl (step rt) s

/-- The page when the script has been loaded, lines 13 and 211: `currentModel`
is `auto` and `checkAvailableModels()` has been called once.  What the
document holds before the script runs is a parameter. -/
def initialState (transcript : List Message) (input display : JsString) (typingHidden : Bool) :
    State :=
  State.run
    { transcript := transcript, input := input, typingHidden := typingHidden,
      display := display, currentModel := lit "auto", requests := [], pending := [],
      console := [] }
    checkAvailableModels

/-! ## What the `/model` chains read -/

/-- The string the success callback of a `/model` chain reads from
`data.current_model`: present when the body was read as an object that holds
a string there.  The chains never read `response.ok` (lines 56 and 177), so
the status plays no part in it. -/
def readModel : FetchResult → Option JsString
  | .rejected _ => none
  | .resolved response =>
    match response.json with
    | .ok (.object fields) =>
      match getField fields (lit "current_model") with
      | .string m => some m
      | _ => none
    | _ => none

/-! ## Vocabulary of the properties -/

/-- The value a settled `/model` request confirms: the `current_model` string
of a success response, one with a success status and a body read as an
object.  A rejection, a failure status or a body without that string
confirms nothing. -/
def confirmedModel : FetchResult → Option JsString
  | .rejected _ => none
  | .resolved response =>
    if response.ok then
      match response.json with
      | .ok (.object fields) =>
        match getField fields (lit "current_model") with
        | .string m => some m
        | _ => none
      | _ => none
    else none

/-- The value an event confirms: that of the `/model` request (`GET` or
`POST`) it settles, if any. -/
def confirmedBy (s : State) : Event → Option JsString
  | .settle i res =>
    match s.pending[i]? with
    | some .modelGet => confirmedModel res
    | some (.modelPost _) => confirmedModel res
    | _ => none
  | _ => none

/-- The value confirmed last in a sequence of events starting from `s`. -/
def lastConfirmed (rt : Runtime) (s : State) : List Event → Option JsString
  | [] => none
  | e :: es =>
    match lastConfirmed rt (step rt s e) es with
    | some m => some m
    | none => confirmedBy s e

/-- Whether an event is the settling of a pending reset request. -/
def isResetSettle (s : State) : Event → Bool
  | .settle i _ => s.pending[i]? == some .reset
  | _ => false

/-- Whether an effect appends a message to the transcript. -/
def Effect.isAppend : Effect → Bool
  | .appendMessage _ => true
  | _ => false

/-- Among the effects before the first appended message there is a
`hideTyping`, and exactly one message is appended. -/
def HidesThenAppendsOnce (es : List Effect) : Prop :=
  Effect.hideTyping ∈ es.takeWhile (fun e => !e.isAppend) ∧
    (es.filter Effect.isAppend).length = 1

instance (es : List Effect) : Decidable (HidesThenAppendsOnce es) :=
  inferInstanceAs (Decidable (_ ∧ _))

/-- The greeting of line 158. -/
def greeting : Message :=
  ⟨lit "Hello! I\x27m your AI assistant. How can I help you today?", false, false⟩

/-- An engine to evaluate examples with: `toUpperCase` on the letters a-z. -/
def asciiEngine : Runtime :=
  { toUpperCase := fun s => s.map (fun c => if 97 ≤ c ∧ c ≤ 122 then c - 32 else c)
    typeError := fun expr => ⟨lit "Cannot read " ++ expr⟩ }

/-- A page to evaluate examples on: a greeting and one user message in the
transcript, one chat request in flight, the indicator showing. -/
def examplePage : State :=
  { transcript := [greeting, ⟨lit "hi", true, false⟩]
    input := lit "  hello "
    typingHidden := false
    display := lit "Auto"
    currentModel := lit "auto"
    requests := [.modelGet, .chat (lit "hi")]
    pending := [.chat (lit "hi")]
    console := [] }

/-! ## What each chain does, case by case -/

theorem submitHandler_empty (value : JsString) (h : trim value = []) :
    (submitHandler value).effects = [] := by
  simp [submitHandler, h, Js.pure]

theorem submitHandler_nonempty (value : JsString) (h : trim value ≠ []) :
    (submitHandler value).effects =
      [.appendMessage ⟨trim value, true, false⟩, .scrollToBottom, .setInput [],
        .showTyping, .scrollToBottom, .fetch (.chat (trim value))] := by
  simp [submitHandler, h, List.isEmpty_iff]
  rfl

theorem submitSettled_fields (rt : Runtime) (fields : List (JsString × JsValue)) :
    submitSettled rt (.resolved ⟨true, .ok (.object fields)⟩) =
      submitSettled rt (.resolved ⟨true, .ok (.object
        [(lit "error", getField fields (lit "error")),
          (lit "response", getField fields (lit "response"))])⟩) := rfl

theorem submitSettled_shape (rt : Runtime) (res : FetchResult) :
    ∃ m, ((submitSettled rt res).effects = [.hideTyping, .appendMessage m, .scrollToBottom] ∨
        ∃ e, (submitSettled rt res).effects =
            [.hideTyping, .appendMessage m, .scrollToBottom, .consoleError (lit "Error:") e] ∨
          (submitSettled rt res).effects =
            [.hideTyping, .hideTyping, .appendMessage m, .scrollToBottom,
              .consoleError (lit "Error:") e]) ∧
      m.isUser = false ∧ m.isSystem = false := by
  rcases res with r | ⟨ok, json⟩
  · exact ⟨_, Or.inr ⟨_, Or.inl rfl⟩, rfl, rfl⟩
  · cases ok
    · exact ⟨_, Or.inr ⟨_, Or.inl rfl⟩, rfl, rfl⟩
    · rcases json with e | data
      · exact ⟨_, Or.inr ⟨_, Or.inl rfl⟩, rfl, rfl⟩
      · rcases data with _ | _ | fields
        · exact ⟨_, Or.inr ⟨_, Or.inr rfl⟩, rfl, rfl⟩
        · exact ⟨_, Or.inl rfl, rfl, rfl⟩
        · rw [submitSettled_fields]
          generalize getField fields (lit "error") = ve
          generalize getField fields (lit "response") = vr
          rcases ve with _ | _ | (_ | _) | ⟨(_ | _), t⟩ | (_ | ⟨c, cs⟩) | (e | t) <;>
            rcases vr with _ | _ | (_ | _) | ⟨nz, t2⟩ | sr | (e2 | t2) <;>
            first
              | exact ⟨_, Or.inl rfl, rfl, rfl⟩
              | exact ⟨_, Or.inr ⟨_, Or.inl rfl⟩, rfl, rfl⟩
              | exact ⟨_, Or.inr ⟨_, Or.inr rfl⟩, rfl, rfl⟩

theorem resetSettled_shape (res : FetchResult) :
    (resetSettled res).effects = [.clearTranscript, .appendMessage greeting, .scrollToBottom] ∨
      ∃ e, (resetSettled res).effects =
        [.consoleError (lit "Error resetting chat:") e,
          .appendMessage ⟨lit "Error resetting chat. Please try again.", false, false⟩,
          .scrollToBottom] := by
  rcases res with r | ⟨ok, e | data⟩
  · exact Or.inr ⟨_, rfl⟩
  · exact Or.inr ⟨_, rfl⟩
  · exact Or.inl rfl

theorem checkAvailableModelsSettled_confirmed (rt : Runtime) (ok : Bool)
    (fields : List (JsString × JsValue)) (m : JsString)
    (h : getField fields (lit "current_model") = .string m) :
    (checkAvailableModelsSettled rt (.resolved ⟨ok, .ok (.object fields)⟩)).effects =
      [.hideTyping, .setDisplay (rt.toUpperCase (charAt0 m) ++ slice1 m), .setCurrentModel m,
        .appendMessage
          ⟨lit "Available AI models:" ++
            (if (getField fields (lit "openai_available")).truthy then lit "\n✓ OpenAI (GPT-4o)"
              else lit "\n✗ OpenAI (API key not configured)") ++
            (if (getField fields (lit "gemini_available")).truthy then lit "\n✓ Google Gemini"
              else lit "\n✗ Google Gemini (API key not configured)") ++
            (if (getField fields (lit "nltk_available")).truthy
              then lit "\n✓ NLTK (Rule-Based Fallback)" else []) ++
            (lit "\n\nCurrent model: " ++ rt.toUpperCase m), false, true⟩,
        .scrollToBottom] := by
  cases h1 : (getField fields (lit "openai_available")).truthy <;>
  cases h2 : (getField fields (lit "gemini_available")).truthy <;>
  cases h3 : (getField fields (lit "nltk_available")).truthy <;>
  simp [checkAvailableModelsSettled, FetchResult.await, liftExcept, Json.get, bind, Js.bind,
    pure, Js.pure, throwJs, emit, tryCatch, hideTypingIndicator, addMessage, JsValue.toStr,
    h, h1, h2, h3]

theorem checkAvailableModelsSettled_failed (rt : Runtime) (res : FetchResult)
    (h : readModel res = none) :
    ∃ e, (checkAvailableModelsSettled rt res).effects =
        [.hideTyping, .consoleError (lit "Error checking models:") e,
          .appendMessage ⟨lit "Error checking available models. Please try again.", false, true⟩,
          .scrollToBottom] ∨
      (checkAvailableModelsSettled rt res).effects =
        [.hideTyping, .hideTyping, .consoleError (lit "Error checking models:") e,
          .appendMessage ⟨lit "Error checking available models. Please try again.", false, true⟩,
          .scrollToBottom] := by
  rcases res with r | ⟨ok, e | _ | _ | fields⟩
  · exact ⟨_, Or.inl rfl⟩
  · exact ⟨_, Or.inl rfl⟩
  · exact ⟨_, Or.inr rfl⟩
  · exact ⟨_, Or.inr rfl⟩
  · rcases hv : getField fields (lit "current_model") with _ | _ | b | ⟨nz, t⟩ | m | t <;>
      simp [readModel, hv] at h <;>
      refine ⟨rt.typeError (lit "data.current_model.charAt"), Or.inr ?_⟩ <;>
      simp [checkAvailableModelsSettled, FetchResult.await, liftExcept, Json.get, bind, Js.bind,
        pure, Js.pure, throwJs, emit, tryCatch, hideTypingIndicator, addMessage, JsValue.toStr,
        hv]

theorem changeModelSettled_confirmed (rt : Runtime) (ok : Bool)
    (fields : List (JsString × JsValue)) (m : JsString)
    (h : getField fields (lit "current_model") = .string m) :
    (changeModelSettled rt (.resolved ⟨ok, .ok (.object fields)⟩)).effects =
      [.hideTyping, .setDisplay (rt.toUpperCase (charAt0 m) ++ slice1 m), .setCurrentModel m,
        .appendMessage ⟨lit "Model switched to: " ++ rt.toUpperCase m, false, true⟩,
        .scrollToBottom] := by
  simp [changeModelSettled, FetchResult.await, liftExcept, Json.get, bind, Js.bind,
    pure, Js.pure, throwJs, emit, tryCatch, hideTypingIndicator, addMessage, JsValue.toStr, h]

theorem changeModelSettled_failed (rt : Runtime) (res : FetchResult)
    (h : readModel res = none) :
    ∃ e, (changeModelSettled rt res).effects =
        [.hideTyping, .consoleError (lit "Error changing model:") e,
          .appendMessage ⟨lit "Error changing model. Please try again.", false, true⟩,
          .scrollToBottom] ∨
      (changeModelSettled rt res).effects =
        [.hideTyping, .hideTyping, .consoleError (lit "Error changing model:") e,
          .appendMessage ⟨lit "Error changing model. Please try again.", false, true⟩,
          .scrollToBottom] := by
  rcases res with r | ⟨ok, e | _ | _ | fields⟩
  · exact ⟨_, Or.inl rfl⟩
  · exact ⟨_, Or.inl rfl⟩
  · exact ⟨_, Or.inr rfl⟩
  · exact ⟨_, Or.inr rfl⟩
  · rcases hv : getField fields (lit "current_model") with _ | _ | b | ⟨nz, t⟩ | m | t <;>
      simp [readModel, hv] at h <;>
      refine ⟨rt.typeError (lit "data.current_model.charAt"), Or.inr ?_⟩ <;>
      simp [changeModelSettled, FetchResult.await, liftExcept, Json.get, bind, Js.bind,
        pure, Js.pure, throwJs, emit, tryCatch, hideTypingIndicator, addMessage, JsValue.toStr,
        hv]

theorem readModel_some (res : FetchResult) (m : JsString) (h : readModel res = some m) :
    ∃ ok fields, res = .resolved ⟨ok, .ok (.object fields)⟩ ∧
      getField fields (lit "current_model") = .string m := by
  rcases res with r | ⟨ok, e | _ | _ | fields⟩
  · simp [readModel] at h
  · simp [readModel] at h
  · simp [readModel] at h
  · simp [readModel] at h
  · refine ⟨ok, fields, rfl, ?_⟩
    rcases hv : getField fields (lit "current_model") with _ | _ | b | ⟨nz, t⟩ | m2 | t <;>
      simp [readModel, hv] at h
    rw [h]

/-! ## Sending a message -/

/-- C1. The submit handler does nothing at all when the trimmed input is
empty; otherwise it first appends one user message holding the trimmed input,
then clears the field, shows the indicator and issues one `/chat` request
whose body holds the trimmed input. -/
theorem submit_guard (rt : Runtime) (s : State) :
    (trim s.input = [] → step rt s .submit = s) ∧
    (trim s.input ≠ [] →
      (submitHandler s.input).effects =
        [.appendMessage ⟨trim s.input, true, false⟩, .scrollToBottom, .setInput [],
          .showTyping, .scrollToBottom, .fetch (.chat (trim s.input))] ∧
      (step rt s .submit).transcript = s.transcript ++ [⟨trim s.input, true, false⟩] ∧
      (step rt s .submit).requests = s.requests ++ [.chat (trim s.input)] ∧
      (step rt s .submit).pending = s.pending ++ [.chat (trim s.input)] ∧
      (step rt s .submit).input = []) := by
  constructor
  · intro h
    simp [step, State.run, submitHandler_empty s.input h, State.applyAll]
  · intro h
    have he := submitHandler_nonempty s.input h
    refine ⟨he, ?_⟩
    simp [step, State.run, he, State.applyAll, State.apply]

/-- C1, evaluated: a whitespace-only input leaves the page as it is, and the
input `"  hello "` appends the user message `hello` and requests `hello`. -/
theorem submit_guard_witness :
    (trim (lit " \t\n") = [] ∧
      step asciiEngine { examplePage with input := lit " \t\n" } .submit =
        { examplePage with input := lit " \t\n" }) ∧
    (trim examplePage.input ≠ [] ∧
      (step asciiEngine examplePage .submit).transcript =
        examplePage.transcript ++ [⟨lit "hello", true, false⟩] ∧
      (step asciiEngine examplePage .submit).requests =
        examplePage.requests ++ [.chat (lit "hello")]) :=
  ⟨⟨by decide, (submit_guard asciiEngine { examplePage with input := lit " \t\n" }).1 (by decide)⟩,
    ⟨by decide, ((submit_guard asciiEngine examplePage).2 (by decide)).2.1,
      ((submit_guard asciiEngine examplePage).2 (by decide)).2.2.1⟩⟩

/-- C2, as stated, fails for the empty error string: the body `{error: ""}`
is rendered as the text `undefined`, not as `Error: ` followed by the field. -/
theorem chat_empty_error_field :
    (examplePage.run (submitSettled asciiEngine
        (.resolved ⟨true, .ok (.object [(lit "error", .string [])])⟩))).transcript =
      examplePage.transcript ++ [⟨lit "undefined", false, false⟩] ∧
    lit "undefined" ≠ lit "Error: " ++ [] := by
  decide

/-- C2, amended. A response with a success status to a send-message request
appends exactly one message that is neither user nor system; when the body
holds a non-empty string `e` in `error` the text is `Error: ` followed by
`e`; when `error` is absent or falsy and `response` holds a string `r` the
text is `r`. -/
theorem chat_success_response (rt : Runtime) (s : State) :
    (∀ json, ∃ m,
      (s.run (submitSettled rt (.resolved ⟨true, json⟩))).transcript = s.transcript ++ [m] ∧
        m.isUser = false ∧ m.isSystem = false) ∧
    (∀ fields e, getField fields (lit "error") = .string e → e ≠ [] →
      (s.run (submitSettled rt (.resolved ⟨true, .ok (.object fields)⟩))).transcript =
        s.transcript ++ [⟨lit "Error: " ++ e, false, false⟩]) ∧
    (∀ fields r, (getField fields (lit "error")).truthy = false →
      getField fields (lit "response") = .string r →
      (s.run (submitSettled rt (.resolved ⟨true, .ok (.object fields)⟩))).transcript =
        s.transcript ++ [⟨r, false, false⟩]) := by
  refine ⟨?_, ?_, ?_⟩
  · intro json
    obtain ⟨m, h, hu, hs⟩ := submitSettled_shape rt (.resolved ⟨true, json⟩)
    refine ⟨m, ?_, hu, hs⟩
    rcases h with h | ⟨e, h | h⟩ <;> simp [State.run, h, State.applyAll, State.apply]
  · intro fields e he hne
    have ht : (JsValue.string e).truthy = true := by
      cases e with
      | nil => exact absurd rfl hne
      | cons c cs => rfl
    simp [State.run, submitSettled, FetchResult.await, liftExcept, Json.get, bind, Js.bind,
      pure, Js.pure, throwJs, emit, tryCatch, hideTypingIndicator, addMessage, JsValue.toStr,
      he, ht, State.applyAll, State.apply]
  · intro fields r he hr
    simp [State.run, submitSettled, FetchResult.await, liftExcept, Json.get, bind, Js.bind,
      pure, Js.pure, throwJs, emit, tryCatch, hideTypingIndicator, addMessage, JsValue.toStr,
      he, hr, State.applyAll, State.apply]

/-- C2, amended, evaluated on the bodies `{error: "boom"}` and `{response: "hi"}`. -/
theorem chat_success_response_witness :
    (getField [(lit "error", .string (lit "boom"))] (lit "error") = .string (lit "boom") ∧
      lit "boom" ≠ [] ∧
      (examplePage.run (submitSettled asciiEngine
          (.resolved ⟨true, .ok (.object [(lit "error", .string (lit "boom"))])⟩))).transcript =
        examplePage.transcript ++ [⟨lit "Error: boom", false, false⟩]) ∧
    ((getField [(lit "response", .string (lit "hi"))] (lit "error")).truthy = false ∧
      getField [(lit "response", .string (lit "hi"))] (lit "response") = .string (lit "hi") ∧
      (examplePage.run (submitSettled asciiEngine
          (.resolved ⟨true, .ok (.object [(lit "response", .string (lit "hi"))])⟩))).transcript =
        examplePage.transcript ++ [⟨lit "hi", false, false⟩]) :=
  ⟨⟨rfl, by decide,
      (chat_success_response asciiEngine examplePage).2.1 _ (lit "boom") rfl (by decide)⟩,
    ⟨rfl, rfl, (chat_success_response asciiEngine examplePage).2.2 _ (lit "hi") rfl rfl⟩⟩

/-- C3. A send-message request that fails in transport, by a network error
with reason `r` or by a response without a success status, keeps the
transcript and appends one message, neither user nor system, whose text
ends with the reason; the indicator is hidden and nothing else on the page
changes but the console. -/
theorem chat_transport_failure (rt : Runtime) (s : State) (r : JsError)
    (json : Except JsError Json) :
    s.run (submitSettled rt (.rejected r)) =
      { s with
        transcript := s.transcript ++
          [⟨lit "Sorry, there was an error processing your request: " ++ r.message, false, false⟩]
        typingHidden := true
        console := s.console ++ [(lit "Error:", r)] } ∧
    s.run (submitSettled rt (.resolved ⟨false, json⟩)) =
      { s with
        transcript := s.transcript ++
          [⟨lit "Sorry, there was an error processing your request: " ++
            lit "Network response was not ok", false, false⟩]
        typingHidden := true
        console := s.console ++ [(lit "Error:", ⟨lit "Network response was not ok"⟩)] } ∧
    r.message <:+: lit "Sorry, there was an error processing your request: " ++ r.message ∧
    (s.run (submitSettled rt (.rejected r))).currentModel = s.currentModel ∧
    (s.run (submitSettled rt (.resolved ⟨false, json⟩))).currentModel = s.currentModel :=
  ⟨rfl, rfl, ⟨lit "Sorry, there was an error processing your request: ", [], by simp⟩, rfl, rfl⟩

/-! ## Resetting the conversation -/

/-- C4, as stated, fails for a response with a success status whose body
cannot be read as JSON, such as an empty one: `response.json()` rejects, the
whole transcript is kept and the reset error is appended to it. -/
theorem reset_success_unreadable_body :
    (examplePage.run (resetSettled
        (.resolved ⟨true, .error ⟨lit "Unexpected end of JSON input"⟩⟩))).transcript =
      examplePage.transcript ++
        [⟨lit "Error resetting chat. Please try again.", false, false⟩] ∧
    (examplePage.run (resetSettled
        (.resolved ⟨true, .error ⟨lit "Unexpected end of JSON input"⟩⟩))).transcript.length = 3 ∧
    (examplePage.run (resetSettled
        (.resolved ⟨true, .error ⟨lit "Unexpected end of JSON input"⟩⟩))).transcript ≠
      [greeting] := by
  decide

/-- C4, amended. When a reset request gets a response with a success status
and a body that reads as JSON, whatever the body and the transcript were, the
transcript becomes the greeting alone and nothing else changes. -/
theorem reset_success (s : State) (data : Json) :
    s.run (resetSettled (.resolved ⟨true, .ok data⟩)) = { s with transcript := [greeting] } ∧
    (s.run (resetSettled (.resolved ⟨true, .ok data⟩))).transcript.length = 1 ∧
    (s.run (resetSettled (.resolved ⟨true, .ok data⟩))).currentModel = s.currentModel :=
  ⟨rfl, rfl, rfl⟩

/-- C5, as stated, fails: after a network error the reset chain appends its
error message without the system flag, and after a response with a failure
status and a JSON body it clears the transcript. -/
theorem reset_failure_evaluated :
    (examplePage.run (resetSettled (.rejected ⟨lit "Failed to fetch"⟩))).transcript =
      examplePage.transcript ++
        [⟨lit "Error resetting chat. Please try again.", false, false⟩] ∧
    (examplePage.run (resetSettled
        (.resolved ⟨false, .ok (.object [(lit "error", .string (lit "no session"))])⟩))).transcript =
      [greeting] := by
  decide

/-- C5, amended. When a reset request ends in a network error, or in a
response of any status whose body cannot be read, the transcript is kept and
exactly one message is appended, the reset error text, neither user nor
system; nothing else changes but the console. -/
theorem reset_transport_failure (s : State) (r : JsError) (ok : Bool) :
    s.run (resetSettled (.rejected r)) =
      { s with
        transcript := s.transcript ++
          [⟨lit "Error resetting chat. Please try again.", false, false⟩]
        console := s.console ++ [(lit "Error resetting chat:", r)] } ∧
    s.run (resetSettled (.resolved ⟨ok, .error r⟩)) =
      { s with
        transcript := s.transcript ++
          [⟨lit "Error resetting chat. Please try again.", false, false⟩]
        console := s.console ++ [(lit "Error resetting chat:", r)] } :=
  ⟨rfl, rfl⟩

/-! ## The model state -/

/-- C6, evaluated on the code. After page load the operator picks `gemini`,
which leaves `currentModel` at `auto`; the `POST /model` is then answered with
a failure status and the body `{current_model: "gemini"}`.  No success
response has been handled, so nothing is confirmed, yet `currentModel` is
`gemini`. -/
theorem currentModel_set_by_failure_response :
    (runEvents asciiEngine (initialState [greeting] [] (lit "Auto") true)
      [.clickModel (lit "gemini")]).currentModel = lit "auto" ∧
    lastConfirmed asciiEngine (initialState [greeting] [] (lit "Auto") true)
      [.clickModel (lit "gemini"),
        .settle 1 (.resolved
          ⟨false, .ok (.object [(lit "current_model", .string (lit "gemini"))])⟩)] = none ∧
    (runEvents asciiEngine (initialState [greeting] [] (lit "Auto") true)
      [.clickModel (lit "gemini"),
        .settle 1 (.resolved
          ⟨false, .ok (.object [(lit "current_model", .string (lit "gemini"))])⟩)]).currentModel =
      lit "gemini" ∧
    lit "gemini" ≠ lit "auto" := by
  decide

/-- C7, evaluated on the code. A `POST /model` answered with a failure status
and the body `{current_model: "gemini"}` is handled as a success: the model
state changes and the message appended is the confirmation. -/
theorem changeModel_failure_status_accepted :
    examplePage.currentModel = lit "auto" ∧
    examplePage.run (changeModelSettled asciiEngine
        (.resolved ⟨false, .ok (.object [(lit "current_model", .string (lit "gemini"))])⟩)) =
      { examplePage with
        currentModel := lit "gemini"
        display := lit "Gemini"
        transcript := examplePage.transcript ++ [⟨lit "Model switched to: GEMINI", false, true⟩]
        typingHidden := true } := by
  decide

/-! ## The model status message -/

set_option maxRecDepth 100000 in
/-- C8, as stated, fails when the NLTK flag is false: with all three flags
false the message holds two unavailable markers and no NLTK line. -/
theorem checkModels_all_unavailable :
    (examplePage.run (checkAvailableModelsSettled asciiEngine
        (.resolved ⟨true, .ok (.object
          [(lit "current_model", .string (lit "auto")),
            (lit "openai_available", .bool false),
            (lit "gemini_available", .bool false),
            (lit "nltk_available", .bool false)])⟩))).transcript =
      examplePage.transcript ++
        [⟨lit ("Available AI models:\n✗ OpenAI (API key not configured)" ++
            "\n✗ Google Gemini (API key not configured)\n\nCurrent model: AUTO"), false, true⟩] ∧
    (lit ("Available AI models:\n✗ OpenAI (API key not configured)" ++
        "\n✗ Google Gemini (API key not configured)\n\nCurrent model: AUTO")).count 0x2717 = 2 ∧
    ¬ lit "NLTK" <:+: lit ("Available AI models:\n✗ OpenAI (API key not configured)" ++
        "\n✗ Google Gemini (API key not configured)\n\nCurrent model: AUTO") := by
  decide

/-- C8, amended. A `GET /model` response whose body holds a string
`current_model` appends exactly one system message: the heading, an OpenAI
line and a Gemini line, each checked when the flag is truthy and unchecked
otherwise, an NLTK line only when its flag is truthy, and a last line naming
`current_model` in upper case; with all three flags falsy the message holds
the two unavailable lines and the last line. -/
theorem checkModels_message (rt : Runtime) (s : State) (fields : List (JsString × JsValue))
    (m : JsString) (h : getField fields (lit "current_model") = .string m) :
    s.run (checkAvailableModelsSettled rt (.resolved ⟨true, .ok (.object fields)⟩)) =
      { s with
        typingHidden := true
        display := rt.toUpperCase (charAt0 m) ++ slice1 m
        currentModel := m
        transcript := s.transcript ++
          [⟨lit "Available AI models:" ++
            (if (getField fields (lit "openai_available")).truthy then lit "\n✓ OpenAI (GPT-4o)"
              else lit "\n✗ OpenAI (API key not configured)") ++
            (if (getField fields (lit "gemini_available")).truthy then lit "\n✓ Google Gemini"
              else lit "\n✗ Google Gemini (API key not configured)") ++
            (if (getField fields (lit "nltk_available")).truthy
              then lit "\n✓ NLTK (Rule-Based Fallback)" else []) ++
            (lit "\n\nCurrent model: " ++ rt.toUpperCase m), false, true⟩] } ∧
    ((getField fields (lit "openai_available")).truthy = false →
      (getField fields (lit "gemini_available")).truthy = false →
      (getField fields (lit "nltk_available")).truthy = false →
      (s.run (checkAvailableModelsSettled rt (.resolved ⟨true, .ok (.object fields)⟩))).transcript =
        s.transcript ++
          [⟨lit "Available AI models:" ++ lit "\n✗ OpenAI (API key not configured)" ++
            lit "\n✗ Google Gemini (API key not configured)" ++
            (lit "\n\nCurrent model: " ++ rt.toUpperCase m), false, true⟩]) := by
  have he := checkAvailableModelsSettled_confirmed rt true fields m h
  constructor
  · simp [State.run, he, State.applyAll, State.apply]
  · intro h1 h2 h3
    simp [State.run, he, State.applyAll, State.apply, h1, h2, h3]

set_option maxRecDepth 100000 in
/-- C8, amended, evaluated on a body with OpenAI and NLTK available and on
one with no provider available. -/
theorem checkModels_message_witness :
    (getField
        [(lit "current_model", .string (lit "openai")), (lit "openai_available", .bool true),
          (lit "gemini_available", .bool false), (lit "nltk_available", .bool true)]
        (lit "current_model") = .string (lit "openai") ∧
      (examplePage.run (checkAvailableModelsSettled asciiEngine (.resolved ⟨true, .ok (.object
          [(lit "current_model", .string (lit "openai")), (lit "openai_available", .bool true),
            (lit "gemini_available", .bool false),
            (lit "nltk_available", .bool true)])⟩))).transcript =
        examplePage.transcript ++
          [⟨lit ("Available AI models:\n✓ OpenAI (GPT-4o)" ++
            "\n✗ Google Gemini (API key not configured)\n✓ NLTK (Rule-Based Fallback)" ++
            "\n\nCurrent model: OPENAI"), false, true⟩]) ∧
    (examplePage.run (checkAvailableModelsSettled asciiEngine (.resolved ⟨true, .ok (.object
        [(lit "current_model", .string (lit "auto"))])⟩))).transcript =
      examplePage.transcript ++
        [⟨lit ("Available AI models:\n✗ OpenAI (API key not configured)" ++
          "\n✗ Google Gemini (API key not configured)\n\nCurrent model: AUTO"), false, true⟩] :=
  ⟨⟨rfl,
      congrArg State.transcript (checkModels_message asciiEngine examplePage
        [(lit "current_model", .string (lit "openai")), (lit "openai_available", .bool true),
          (lit "gemini_available", .bool false), (lit "nltk_available", .bool true)]
        (lit "openai") rfl).1⟩,
    (checkModels_message asciiEngine examplePage [(lit "current_model", .string (lit "auto"))]
      (lit "auto") rfl).2 rfl rfl rfl⟩

/-! ## The waiting indicator -/

/-- C9, as stated, fails for reset: the click issues the request without
showing the indicator, and the settled chain appends its message without
hiding it. -/
theorem reset_skips_indicator :
    resetHandler.effects = [.fetch .reset] ∧
    (step asciiEngine { examplePage with typingHidden := true } .clickReset).typingHidden = true ∧
    (step asciiEngine { examplePage with typingHidden := true } .clickReset).pending =
      [.chat (lit "hi"), .reset] ∧
    (resetSettled (.resolved ⟨true, .ok (.object [])⟩)).effects =
      [.clearTranscript, .appendMessage greeting, .scrollToBottom] ∧
    (examplePage.run (resetSettled (.resolved ⟨true, .ok (.object [])⟩))).typingHidden = false ∧
    (resetSettled (.rejected ⟨lit "Failed to fetch"⟩)).effects =
      [.consoleError (lit "Error resetting chat:") ⟨lit "Failed to fetch"⟩,
        .appendMessage ⟨lit "Error resetting chat. Please try again.", false, false⟩,
        .scrollToBottom] := by
  decide

/-- C9, amended. Sending a message, refreshing the model status and switching
the model each show the indicator immediately before issuing their request,
and each of their settled chains hides it before appending its one message;
reset neither shows nor hides the indicator. -/
theorem waiting_state_brackets_requests (rt : Runtime) :
    (∀ t, trim t ≠ [] →
      (submitHandler t).effects =
        [.appendMessage ⟨trim t, true, false⟩, .scrollToBottom, .setInput []] ++
          showTypingIndicator.effects ++ [.fetch (.chat (trim t))]) ∧
    checkAvailableModels.effects = showTypingIndicator.effects ++ [.fetch .modelGet] ∧
    (∀ n, (changeModel n).effects = showTypingIndicator.effects ++ [.fetch (.modelPost n)]) ∧
    showTypingIndicator.effects = [.showTyping, .scrollToBottom] ∧
    (∀ res, HidesThenAppendsOnce (submitSettled rt res).effects ∧
      HidesThenAppendsOnce (checkAvailableModelsSettled rt res).effects ∧
      HidesThenAppendsOnce (changeModelSettled rt res).effects) ∧
    Effect.showTyping ∉ resetHandler.effects ∧
    (∀ res, Effect.hideTyping ∉ (resetSettled res).effects) := by
  refine ⟨?_, rfl, fun _ => rfl, rfl, ?_, by decide, ?_⟩
  · intro t h
    exact submitHandler_nonempty t h
  · intro res
    refine ⟨?_, ?_, ?_⟩
    · obtain ⟨m, h, -, -⟩ := submitSettled_shape rt res
      rcases h with h | ⟨e, h | h⟩ <;>
        simp [HidesThenAppendsOnce, h, Effect.isAppend, List.takeWhile, List.filter]
    · rcases hc : readModel res with _ | m
      · obtain ⟨e, h | h⟩ := checkAvailableModelsSettled_failed rt res hc <;>
          simp [HidesThenAppendsOnce, h, Effect.isAppend, List.takeWhile, List.filter]
      · obtain ⟨ok, fields, rfl, hf⟩ := readModel_some res m hc
        have h := checkAvailableModelsSettled_confirmed rt ok fields m hf
        simp [HidesThenAppendsOnce, h, Effect.isAppend, List.takeWhile, List.filter]
    · rcases hc : readModel res with _ | m
      · obtain ⟨e, h | h⟩ := changeModelSettled_failed rt res hc <;>
          simp [HidesThenAppendsOnce, h, Effect.isAppend, List.takeWhile, List.filter]
      · obtain ⟨ok, fields, rfl, hf⟩ := readModel_some res m hc
        have h := changeModelSettled_confirmed rt ok fields m hf
        simp [HidesThenAppendsOnce, h, Effect.isAppend, List.takeWhile, List.filter]
  · intro res
    rcases resetSettled_shape res with h | ⟨e, h⟩ <;> simp [h]

/-- C9, amended, evaluated on the input `"  hello "`. -/
theorem waiting_state_brackets_requests_witness :
    trim (lit "  hello ") ≠ [] ∧
    (submitHandler (lit "  hello ")).effects =
      [.appendMessage ⟨lit "hello", true, false⟩, .scrollToBottom, .setInput [],
        .showTyping, .scrollToBottom, .fetch (.chat (lit "hello"))] :=
  ⟨by decide, (waiting_state_brackets_requests asciiEngine).1 (lit "  hello ") (by decide)⟩

/-! ## The transcript -/

/-- C10. From any page reached by any sequence of events, an event that is
not the settling of a reset request keeps the transcript as a prefix and adds
at most one message; the settling of a reset request either replaces the
whole transcript by the greeting or keeps it and adds one message. -/
theorem transcript_append_only (rt : Runtime) (s₀ : State) (es : List Event) (e : Event) :
    (isResetSettle (runEvents rt s₀ es) e = false →
      (runEvents rt s₀ es).transcript <+: (step rt (runEvents rt s₀ es) e).transcript ∧
        (step rt (runEvents rt s₀ es) e).transcript.length ≤
          (runEvents rt s₀ es).transcript.length + 1) ∧
    (isResetSettle (runEvents rt s₀ es) e = true →
      (step rt (runEvents rt s₀ es) e).transcript = [greeting] ∨
        ((runEvents rt s₀ es).transcript <+: (step rt (runEvents rt s₀ es) e).transcript ∧
          (step rt (runEvents rt s₀ es) e).transcript.length =
            (runEvents rt s₀ es).transcript.length + 1)) := by
  generalize runEvents rt s₀ es = s
  cases e with
  | editInput value => simp [step, isResetSettle]
  | submit =>
    refine ⟨fun _ => ?_, fun h => by simp [isResetSettle] at h⟩
    by_cases h : trim s.input = []
    · simp [step, submitHandler, h, State.run, State.applyAll, Js.pure]
    · have he := submitHandler_nonempty s.input h
      simp [step, State.run, he, State.applyAll, State.apply]
  | clickReset =>
    exact ⟨fun _ => ⟨⟨[], List.append_nil _⟩, Nat.le_succ _⟩, fun h => by simp [isResetSettle] at h⟩
  | clickCheckModels =>
    exact ⟨fun _ => ⟨⟨[], List.append_nil _⟩, Nat.le_succ _⟩, fun h => by simp [isResetSettle] at h⟩
  | clickModel modelName =>
    exact ⟨fun _ => ⟨⟨[], List.append_nil _⟩, Nat.le_succ _⟩, fun h => by simp [isResetSettle] at h⟩
  | settle i res =>
    rcases hp : s.pending[i]? with _ | req
    · simp [step, hp, isResetSettle]
    · cases req with
      | chat message =>
        refine ⟨fun _ => ?_, fun h => by simp [isResetSettle, hp] at h⟩
        obtain ⟨m, h, -, -⟩ := submitSettled_shape rt res
        rcases h with h | ⟨e, h | h⟩ <;>
          simp [step, hp, onSettle, State.run, h, State.applyAll, State.apply]
      | reset =>
        refine ⟨fun h => by simp [isResetSettle, hp] at h, fun _ => ?_⟩
        rcases resetSettled_shape res with h | ⟨e, h⟩ <;>
          simp [step, hp, onSettle, State.run, h, State.applyAll, State.apply]
      | modelGet =>
        refine ⟨fun _ => ?_, fun h => by simp [isResetSettle, hp] at h⟩
        rcases hc : readModel res with _ | m
        · obtain ⟨e, h | h⟩ := checkAvailableModelsSettled_failed rt res hc <;>
            simp [step, hp, onSettle, State.run, h, State.applyAll, State.apply]
        · obtain ⟨ok, fields, rfl, hf⟩ := readModel_some res m hc
          have h := checkAvailableModelsSettled_confirmed rt ok fields m hf
          simp [step, hp, onSettle, State.run, h, State.applyAll, State.apply]
      | modelPost model =>
        refine ⟨fun _ => ?_, fun h => by simp [isResetSettle, hp] at h⟩
        rcases hc : readModel res with _ | m
        · obtain ⟨e, h | h⟩ := changeModelSettled_failed rt res hc <;>
            simp [step, hp, onSettle, State.run, h, State.applyAll, State.apply]
        · obtain ⟨ok, fields, rfl, hf⟩ := readModel_some res m hc
          have h := changeModelSettled_confirmed rt ok fields m hf
          simp [step, hp, onSettle, State.run, h, State.applyAll, State.apply]

/-- C10, evaluated: settling the pending chat request of the example page adds
one message, and settling a pending reset request with a JSON body leaves the
greeting alone. -/
theorem transcript_append_only_witness :
    (isResetSettle (runEvents asciiEngine examplePage [])
        (.settle 0 (.resolved ⟨true, .ok (.object [(lit "response", .string (lit "yo"))])⟩)) =
        false ∧
      (step asciiEngine (runEvents asciiEngine examplePage [])
        (.settle 0 (.resolved ⟨true, .ok (.object [(lit "response", .string (lit "yo"))])⟩))
        ).transcript.length ≤ (runEvents asciiEngine examplePage []).transcript.length + 1) ∧
    (isResetSettle (runEvents asciiEngine examplePage [.clickReset])
        (.settle 1 (.resolved ⟨true, .ok .null⟩)) = true ∧
      ((step asciiEngine (runEvents asciiEngine examplePage [.clickReset])
          (.settle 1 (.resolved ⟨true, .ok .null⟩))).transcript = [greeting] ∨
        ((runEvents asciiEngine examplePage [.clickReset]).transcript <+:
            (step asciiEngine (runEvents asciiEngine examplePage [.clickReset])
              (.settle 1 (.resolved ⟨true, .ok .null⟩))).transcript ∧
          (step asciiEngine (runEvents asciiEngine examplePage [.clickReset])
              (.settle 1 (.resolved ⟨true, .ok .null⟩))).transcript.length =
            (runEvents asciiEngine examplePage [.clickReset]).transcript.length + 1))) :=
  ⟨⟨rfl, ((transcript_append_only asciiEngine examplePage []
      (.settle 0 (.resolved ⟨true, .ok (.object [(lit "response", .string (lit "yo"))])⟩))).1
        rfl).2⟩,
    ⟨rfl, (transcript_append_only asciiEngine examplePage [.clickReset]
      (.settle 1 (.resolved ⟨true, .ok .null⟩))).2 rfl⟩⟩

end ChatJs
